import Mathlib

/-!
Verification of the attendance check-in service (src/main.py) against its
specification.  The Python module is shallowly embedded below: pure helpers
become Lean functions over exact rationals, the two request handlers become
explicit state-passing functions, and library collaborators (the base64
codec and the floating-point trigonometry inside the Haversine call) are
taken as parameters of the handler.  The real-valued Haversine formula
itself is embedded separately over the reals for its algebraic property.
-/

namespace Davomat

/-- Office latitude constant from main.py line 36, read as an exact decimal. -/
def OFFICE_LAT : ℚ := 40.68560701258604

/-- Office longitude constant from main.py line 37, read as an exact decimal. -/
def OFFICE_LNG : ℚ := 71.90455733991762

/-- Geofence radius in meters, main.py line 38. -/
def MAX_DISTANCE_METERS : ℚ := 50

/-- Python int() applied to a nonnegative-or-negative rational: truncation
toward zero, as used in the OutOfGeofence message and the response payload. -/
def truncInt (q : ℚ) : ℤ := if 0 ≤ q then ⌊q⌋ else ⌈q⌉

/-- Python round() on an exact rational: round half to even (banker rounding). -/
def pyRound (x : ℚ) : ℤ :=
  let f := ⌊x⌋
  let r := x - f
  if r < 1/2 then f
  else if 1/2 < r then f + 1
  else if f % 2 = 0 then f else f + 1

/-- Python round(x, 2): round to two decimal places, half to even. -/
def round2 (x : ℚ) : ℚ := (pyRound (x * 100) : ℚ) / 100

/-- The wall-clock reading taken once at the top of checkin (main.py line 78):
the formatted calendar date and the numeric time-of-day fields the handler uses. -/
structure Now where
  dateStr : String
  hour : Nat
  minute : Nat
  second : Nat
deriving DecidableEq, Repr

/-- Two-digit zero padding, as produced by strftime for hour/minute/second. -/
def pad2 (n : Nat) : String := if n < 10 then "0" ++ toString n else toString n

/-- strftime H:M:S of the clock reading (main.py line 80). -/
def timeStr (t : Now) : String :=
  pad2 t.hour ++ ":" ++ pad2 t.minute ++ ":" ++ pad2 t.second

/-- Lateness test for an arrival, main.py line 88:
now.hour > 8 or (now.hour == 8 and now.minute > 0).  Seconds are not read. -/
def isLate (t : Now) : Bool :=
  decide (t.hour > 8) || (decide (t.hour = 8) && decide (t.minute > 0))

/-- math.radians, used at main.py lines 63-66: degrees to radians. -/
noncomputable def radians (x : ℝ) : ℝ := x * (Real.pi / 180)

open Classical in
/-- math.atan2 over the reals, the standard two-argument arctangent. -/
noncomputable def atan2 (y x : ℝ) : ℝ :=
  if 0 < x then Real.arctan (y / x)
  else if x < 0 then
    if 0 ≤ y then Real.arctan (y / x) + Real.pi else Real.arctan (y / x) - Real.pi
  else
    if 0 < y then Real.pi / 2 else if y < 0 then -(Real.pi / 2) else 0

/-- The Haversine distance function distance_m, main.py lines 57-72, embedded
over the reals (the floating-point evaluation is abstracted to exact real
arithmetic). -/
noncomputable def distance_m (lat1 lng1 lat2 lng2 : ℝ) : ℝ :=
  let R : ℝ := 6371000
  let phi1 := radians lat1
  let phi2 := radians lat2
  let dphi := radians (lat2 - lat1)
  let dlambda := radians (lng2 - lng1)
  let a := Real.sin (dphi / 2) ^ 2 +
    Real.cos phi1 * Real.cos phi2 * Real.sin (dlambda / 2) ^ 2
  let c := 2 * atan2 (Real.sqrt a) (Real.sqrt (1 - a))
  R * c

/-- The CheckIn request model, main.py lines 41-45.  Python floats are
embedded as exact rationals; the optional coordinates keep their optionality. -/
structure CheckIn where
  image_base64 : String
  mode : String
  lat : Option ℚ := none
  lng : Option ℚ := none
deriving DecidableEq, Repr

/-- One CSV cell as handed to csv.writer: the handler writes strings for the
first five columns and Python numbers for lat, lng and the rounded distance. -/
inductive Cell where
  | str (s : String)
  | num (q : ℚ)
deriving DecidableEq, Repr

/-- The header row written when a partition file is created, main.py lines 130-133. -/
def csvHeader : List Cell :=
  [Cell.str "sana", Cell.str "vaqt", Cell.str "mode", Cell.str "status",
   Cell.str "image_file", Cell.str "lat", Cell.str "lng", Cell.str "dist_m"]

/-- The data row appended for one successful check-in, main.py lines 134-145. -/
def mkRow (dateS timeS modeText status filename : String) (lat lng dist : ℚ) :
    List Cell :=
  [Cell.str dateS, Cell.str timeS, Cell.str modeText, Cell.str status,
   Cell.str filename, Cell.num lat, Cell.num lng, Cell.num (round2 dist)]

/-- The on-disk state the two handlers touch: today's CSV partition
(none while the file does not exist) and the image directory, kept as the
list of (filename, decoded bytes) pairs in write order. -/
structure St where
  csvToday : Option (List (List Cell)) := none
  images : List (String × List Nat) := []
deriving DecidableEq, Repr

/-- The five failure kinds the two endpoints raise.  OutOfGeofence carries the
integer-meter distance interpolated into its message (main.py line 104). -/
inductive Err where
  | invalidMode
  | missingLocation
  | outOfGeofence (distShown : ℤ)
  | invalidImage
  | noDataForToday
deriving DecidableEq, Repr

/-- The success payload returned to the caller, main.py lines 148-156. -/
structure Resp where
  date : String
  time : String
  mode_text : String
  status : String
  is_late : Bool
  image_url : String
  distance_m : ℤ
deriving DecidableEq, Repr

/-- The lateness flag assigned at main.py lines 88 and 92, keyed on the mode. -/
def isLateOf (mode : String) (now : Now) : Bool :=
  if mode = "arrival" then isLate now else false

/-- The status label assigned at main.py lines 89 and 93, keyed on the mode. -/
def statusOf (mode : String) (now : Now) : String :=
  if mode = "arrival" then
    if isLate now then "KECHIKIB KELDI" else "O\x27z vaqtida keldi"
  else "Ishdan ketdi"

/-- The human mode label assigned at main.py lines 90 and 94. -/
def modeTextOf (mode : String) : String :=
  if mode = "arrival" then "Ishga keldi" else "Ishdan ketdi"

/-- Data-URL stripping, main.py lines 109-112: when the payload contains a
comma, everything up to and including the first comma is discarded
(Python split(",", 1) keeps the remainder whole). -/
def stripDataUrl (s : String) : String :=
  if s.data.contains ',' then
    String.mk ((s.data.dropWhile (fun c => ¬ c = ',')).drop 1)
  else s

/-- time_str.replace(":", "-") from main.py line 118: the pattern is the
single character colon, so the call is an exact per-character substitution. -/
def colonsToHyphens (s : String) : String :=
  String.mk (s.data.map (fun c => if c = ':' then '-' else c))

/-- Filename generation, main.py line 118: date, time with colons replaced by
hyphens, and the random suffix (modelled as the input sfx). -/
def mkFilename (t : Now) (sfx : String) : String :=
  t.dateStr ++ "_" ++ colonsToHyphens (timeStr t) ++ "_" ++ sfx ++ ".jpg"

/-- The CSV append of main.py lines 126-145: a missing partition file is
created with the header row first, then the data row is appended. -/
def appendRow (csv : Option (List (List Cell))) (row : List Cell) :
    List (List Cell) :=
  match csv with
  | none => [csvHeader, row]
  | some rows => rows ++ [row]

/-- The /checkin handler, main.py lines 77-156, as explicit state passing.
dFn stands for the floating-point Haversine call distance_m (its real-valued
mathematics is embedded separately above), dec for the base64 library
decoder, now for the wall-clock reading and sfx for the random uuid suffix.
An HTTPException is the error component, returned with the state as it was
at the raise point. -/
def checkin (dFn : ℚ → ℚ → ℚ → ℚ → ℚ) (dec : String → Option (List Nat))
    (now : Now) (sfx : String) (data : CheckIn) (st : St) :
    Except Err Resp × St :=
  if ¬ (data.mode = "arrival" ∨ data.mode = "departure") then
    (.error .invalidMode, st)
  else
    match data.lat, data.lng with
    | some lat, some lng =>
      let dist := dFn lat lng OFFICE_LAT OFFICE_LNG
      if dist > MAX_DISTANCE_METERS then
        (.error (.outOfGeofence (truncInt dist)), st)
      else
        match dec (stripDataUrl data.image_base64) with
        | none => (.error .invalidImage, st)
        | some img_bytes =>
          let filename := mkFilename now sfx
          let st1 : St := { st with images := st.images ++ [(filename, img_bytes)] }
          let row := mkRow now.dateStr (timeStr now) (modeTextOf data.mode)
            (statusOf data.mode now) filename lat lng dist
          let st2 : St := { st1 with csvToday := some (appendRow st1.csvToday row) }
          (.ok { date := now.dateStr, time := timeStr now,
                 mode_text := modeTextOf data.mode,
                 status := statusOf data.mode now,
                 is_late := isLateOf data.mode now, image_url := filename,
                 distance_m := truncInt dist }, st2)
    | _, _ => (.error .missingLocation, st)

/-- One output row of the exported sheet: the seven copied cells, the embedded
thumbnail (none when the image file is absent from disk) and the row height
set at main.py line 198. -/
structure XRow where
  sana : Option Cell
  vaqt : Option Cell
  modeCol : Option Cell
  statusCol : Option Cell
  latCol : Option Cell
  lngCol : Option Cell
  distCol : Option Cell
  image : Option String
  height : Nat
deriving DecidableEq, Repr

/-- One iteration of the export loop, main.py lines 180-199: copy the seven
cells, embed the thumbnail only when the referenced image file exists
(lines 191-196), set height 60 (line 198).  The DictReader pass is embedded
positionally: rows written by checkin carry their eight cells in header
order. -/
def buildRow (st : St) (r : List Cell) : XRow :=
  { sana := r[0]?, vaqt := r[1]?, modeCol := r[2]?, statusCol := r[3]?,
    latCol := r[5]?, lngCol := r[6]?, distCol := r[7]?,
    image :=
      match r[4]? with
      | some (Cell.str f) =>
        if (st.images.map Prod.fst).contains f then some f else none
      | _ => none,
    height := 60 }

/-- The /export-today handler, main.py lines 161-210: a missing partition is
the 404 failure; otherwise the first line is consumed as the CSV header and
each following line becomes one output row. -/
def export_today (st : St) : Except Err (List XRow) :=
  match st.csvToday with
  | none => .error .noDataForToday
  | some content => .ok ((content.drop 1).map (buildRow st))

/-! Concrete fixtures used to exercise the handlers on closed inputs. -/

/-- A distance oracle that always answers 0 m (at the office). -/
def dFn0 : ℚ → ℚ → ℚ → ℚ → ℚ := fun _ _ _ _ => 0

/-- A distance oracle that always answers 50.5 m (outside the fence). -/
def dFnFar : ℚ → ℚ → ℚ → ℚ → ℚ := fun _ _ _ _ => mkRat 101 2

/-- A decoder that accepts anything as the byte [1]. -/
def dec0 : String → Option (List Nat) := fun _ => some [1]

/-- A clock reading one second past eight. -/
def now0 : Now := ⟨"2026-10-12", 8, 0, 1⟩

/-- An arrival request carrying both coordinates. -/
def reqArr : CheckIn :=
  { image_base64 := "img", mode := "arrival", lat := some 1, lng := some 2 }

/-- A departure request carrying both coordinates. -/
def reqDep : CheckIn :=
  { image_base64 := "img", mode := "departure", lat := some 1, lng := some 2 }

/-- A request with the unknown mode the spec tests mention. -/
def reqLunch : CheckIn :=
  { image_base64 := "img", mode := "lunch", lat := some 1, lng := some 2 }

/-- The image filename generated for now0 with suffix abc123. -/
def fn0 : String := "2026-10-12_08-00-01_abc123.jpg"

/-- The response produced by the fixture arrival run. -/
def respArr0 : Resp :=
  { date := "2026-10-12", time := "08:00:01", mode_text := "Ishga keldi",
    status := "O\x27z vaqtida keldi", is_late := false, image_url := fn0,
    distance_m := 0 }

/-- The log row produced by the fixture arrival run. -/
def rowArr0 : List Cell :=
  [Cell.str "2026-10-12", Cell.str "08:00:01", Cell.str "Ishga keldi",
   Cell.str "O\x27z vaqtida keldi", Cell.str fn0, Cell.num 1, Cell.num 2,
   Cell.num (round2 0)]

/-- The state left by the fixture arrival run from the empty state. -/
def stArr0 : St :=
  { csvToday := some [csvHeader, rowArr0], images := [(fn0, [1])] }

/-- The response produced by the fixture departure run. -/
def respDep0 : Resp :=
  { date := "2026-10-12", time := "08:00:01", mode_text := "Ishdan ketdi",
    status := "Ishdan ketdi", is_late := false, image_url := fn0,
    distance_m := 0 }

/-- The log row produced by the fixture departure run. -/
def rowDep0 : List Cell :=
  [Cell.str "2026-10-12", Cell.str "08:00:01", Cell.str "Ishdan ketdi",
   Cell.str "Ishdan ketdi", Cell.str fn0, Cell.num 1, Cell.num 2,
   Cell.num (round2 0)]

/-- The state left by the fixture departure run from the empty state. -/
def stDep0 : St :=
  { csvToday := some [csvHeader, rowDep0], images := [(fn0, [1])] }

/-- A second fixture clock reading, later the same day. -/
def now1 : Now := ⟨"2026-10-12", 17, 5, 0⟩

/-- A state whose only log row references an image absent from disk. -/
def stGhost : St := { csvToday := some [csvHeader, rowArr0], images := [] }

lemma checkin_fixture_arrival :
    checkin dFn0 dec0 now0 "abc123" reqArr {} = (.ok respArr0, stArr0) := by
  rfl

lemma checkin_fixture_departure :
    checkin dFn0 dec0 now0 "abc123" reqDep {} = (.ok respDep0, stDep0) := by
  rfl

/-! Helper lemmas shared by the claim theorems. -/

lemma radians_sub_flip (x y : ℝ) : radians (x - y) = -(radians (y - x)) := by
  unfold radians; ring

lemma sin_sq_radians_flip (x y : ℝ) :
    Real.sin (radians (x - y) / 2) ^ 2 = Real.sin (radians (y - x) / 2) ^ 2 := by
  rw [radians_sub_flip, neg_div, Real.sin_neg]; ring

/-- The state produced by a successful check-in, for restating the handler. -/
def successSt (st : St) (filename : String) (bytes : List Nat) (row : List Cell) :
    St :=
  { csvToday := some (appendRow st.csvToday row),
    images := st.images ++ [(filename, bytes)] }

/-- Forward evaluation of checkin under its success preconditions. -/
lemma checkin_success (dFn : ℚ → ℚ → ℚ → ℚ → ℚ) (dec : String → Option (List Nat))
    (now : Now) (sfx : String) (data : CheckIn) (st : St) (lat lng : ℚ)
    (bytes : List Nat)
    (hm : data.mode = "arrival" ∨ data.mode = "departure")
    (hla : data.lat = some lat) (hln : data.lng = some lng)
    (hd : ¬ dFn lat lng OFFICE_LAT OFFICE_LNG > MAX_DISTANCE_METERS)
    (hb : dec (stripDataUrl data.image_base64) = some bytes) :
    checkin dFn dec now sfx data st =
      (.ok { date := now.dateStr, time := timeStr now,
             mode_text := modeTextOf data.mode,
             status := statusOf data.mode now,
             is_late := isLateOf data.mode now,
             image_url := mkFilename now sfx,
             distance_m := truncInt (dFn lat lng OFFICE_LAT OFFICE_LNG) },
       successSt st (mkFilename now sfx) bytes
         (mkRow now.dateStr (timeStr now) (modeTextOf data.mode)
           (statusOf data.mode now) (mkFilename now sfx) lat lng
           (dFn lat lng OFFICE_LAT OFFICE_LNG))) := by
  have hmm : ¬ ¬ (data.mode = "arrival" ∨ data.mode = "departure") :=
    not_not_intro hm
  simp only [checkin, hla, hln, hb, if_neg hmm, if_neg hd, successSt]

/-- Inversion: a successful check-in forces every validation to have passed
and determines the response and the final state. -/
lemma checkin_ok_elim (dFn : ℚ → ℚ → ℚ → ℚ → ℚ)
    (dec : String → Option (List Nat)) (now : Now) (sfx : String)
    (data : CheckIn) (st : St) (resp : Resp) (stOut : St)
    (h : checkin dFn dec now sfx data st = (.ok resp, stOut)) :
    ∃ lat lng bytes,
      data.lat = some lat ∧ data.lng = some lng ∧
      (data.mode = "arrival" ∨ data.mode = "departure") ∧
      ¬ dFn lat lng OFFICE_LAT OFFICE_LNG > MAX_DISTANCE_METERS ∧
      dec (stripDataUrl data.image_base64) = some bytes ∧
      resp = { date := now.dateStr, time := timeStr now,
               mode_text := modeTextOf data.mode,
               status := statusOf data.mode now,
               is_late := isLateOf data.mode now,
               image_url := mkFilename now sfx,
               distance_m := truncInt (dFn lat lng OFFICE_LAT OFFICE_LNG) } ∧
      stOut = successSt st (mkFilename now sfx) bytes
        (mkRow now.dateStr (timeStr now) (modeTextOf data.mode)
          (statusOf data.mode now) (mkFilename now sfx) lat lng
          (dFn lat lng OFFICE_LAT OFFICE_LNG)) := by
  by_cases hm : data.mode = "arrival" ∨ data.mode = "departure"
  · cases hla : data.lat with
    | none =>
      simp only [checkin, if_neg (not_not_intro hm), hla] at h
      exact Except.noConfusion (congrArg Prod.fst h)
    | some lat =>
      cases hln : data.lng with
      | none =>
        simp only [checkin, if_neg (not_not_intro hm), hla, hln] at h
        exact Except.noConfusion (congrArg Prod.fst h)
      | some lng =>
        by_cases hd : dFn lat lng OFFICE_LAT OFFICE_LNG > MAX_DISTANCE_METERS
        · simp only [checkin, if_neg (not_not_intro hm), hla, hln, if_pos hd]
            at h
          exact Except.noConfusion (congrArg Prod.fst h)
        · cases hb : dec (stripDataUrl data.image_base64) with
          | none =>
            simp only [checkin, if_neg (not_not_intro hm), hla, hln,
              if_neg hd, hb] at h
            exact Except.noConfusion (congrArg Prod.fst h)
          | some bytes =>
            have := checkin_success dFn dec now sfx data st lat lng bytes hm
              hla hln hd hb
            rw [this] at h
            obtain ⟨h1, h2⟩ := Prod.mk.injEq .. ▸ h
            exact ⟨lat, lng, bytes, rfl, rfl, hm, hd, rfl,
              (Except.ok.injEq .. ▸ h1).symm, h2.symm⟩
  · simp only [checkin, if_pos hm] at h
    exact Except.noConfusion (congrArg Prod.fst h)

/-- Case split on checkin's result: either the state is untouched, or the
request succeeded. -/
lemma checkin_pair_cases (dFn : ℚ → ℚ → ℚ → ℚ → ℚ)
    (dec : String → Option (List Nat)) (now : Now) (sfx : String)
    (data : CheckIn) (st : St) :
    (checkin dFn dec now sfx data st).2 = st ∨
    ∃ resp, (checkin dFn dec now sfx data st).1 = .ok resp := by
  by_cases hm : data.mode = "arrival" ∨ data.mode = "departure"
  · cases hla : data.lat with
    | none => left; simp only [checkin, if_neg (not_not_intro hm), hla]
    | some lat =>
      cases hln : data.lng with
      | none => left; simp only [checkin, if_neg (not_not_intro hm), hla, hln]
      | some lng =>
        by_cases hd : dFn lat lng OFFICE_LAT OFFICE_LNG > MAX_DISTANCE_METERS
        · left
          simp only [checkin, if_neg (not_not_intro hm), hla, hln, if_pos hd]
        · cases hb : dec (stripDataUrl data.image_base64) with
          | none =>
            left
            simp only [checkin, if_neg (not_not_intro hm), hla, hln,
              if_neg hd, hb]
          | some bytes =>
            right
            exact ⟨_, by
              rw [checkin_success dFn dec now sfx data st lat lng bytes hm
                hla hln hd hb]⟩
  · left; simp only [checkin, if_pos hm]

/-- Any failing check-in leaves the state exactly as it was. -/
lemma checkin_error_state (dFn : ℚ → ℚ → ℚ → ℚ → ℚ)
    (dec : String → Option (List Nat)) (now : Now) (sfx : String)
    (data : CheckIn) (st : St) (e : Err)
    (h : (checkin dFn dec now sfx data st).1 = .error e) :
    (checkin dFn dec now sfx data st).2 = st := by
  rcases checkin_pair_cases dFn dec now sfx data st with h2 | ⟨resp, h2⟩
  · exact h2
  · rw [h2] at h
    exact Except.noConfusion h

/-- Banker rounding never climbs above an integer bound. -/
lemma pyRound_le_of_le (x : ℚ) (n : ℤ) (hx : x ≤ (n : ℚ)) : pyRound x ≤ n := by
  have hf : ⌊x⌋ ≤ n := by
    have h1 : ⌊x⌋ ≤ ⌊(n : ℚ)⌋ := Int.floor_le_floor hx
    simpa using h1
  have hup : ¬ x - (⌊x⌋ : ℚ) < 1/2 → ⌊x⌋ + 1 ≤ n := by
    intro h1
    have h2 : (⌊x⌋ : ℚ) + 1/2 ≤ x := by
      have := not_lt.mp h1
      linarith
    have h3 : (⌊x⌋ : ℚ) < (n : ℚ) := by linarith
    have h4 : ⌊x⌋ < n := by exact_mod_cast h3
    omega
  show (if x - (⌊x⌋ : ℚ) < 1/2 then ⌊x⌋
    else if 1/2 < x - (⌊x⌋ : ℚ) then ⌊x⌋ + 1
    else if ⌊x⌋ % 2 = 0 then ⌊x⌋ else ⌊x⌋ + 1) ≤ n
  by_cases h1 : x - (⌊x⌋ : ℚ) < 1/2
  · rw [if_pos h1]; exact hf
  · rw [if_neg h1]
    by_cases h2 : 1/2 < x - (⌊x⌋ : ℚ)
    · rw [if_pos h2]; exact hup h1
    · rw [if_neg h2]
      by_cases h3 : ⌊x⌋ % 2 = 0
      · rw [if_pos h3]; exact hf
      · rw [if_neg h3]; exact hup h1

/-- Rounding to two decimals preserves the geofence bound. -/
lemma round2_le_max (x : ℚ) (hx : x ≤ MAX_DISTANCE_METERS) :
    round2 x ≤ MAX_DISTANCE_METERS := by
  have hb : x * 100 ≤ ((5000 : ℤ) : ℚ) := by
    have : x ≤ 50 := hx
    push_cast
    linarith
  have h := pyRound_le_of_le (x * 100) 5000 hb
  have h2 : (pyRound (x * 100) : ℚ) ≤ 5000 := by exact_mod_cast h
  show (pyRound (x * 100) : ℚ) / 100 ≤ MAX_DISTANCE_METERS
  rw [MAX_DISTANCE_METERS]
  linarith

/-- Splitting appendRow output: the result always ends in the new row, and
starts with the header whenever the existing content did (or was absent). -/
lemma appendRow_header (csv : Option (List (List Cell))) (row : List Cell)
    (hinv : ∀ rows, csv = some rows → ∃ d, rows = csvHeader :: d) :
    ∃ d, appendRow csv row = csvHeader :: d := by
  cases csv with
  | none => exact ⟨[row], rfl⟩
  | some rows =>
    obtain ⟨d, hd⟩ := hinv rows rfl
    exact ⟨d ++ [row], by simp [appendRow, hd]⟩

/-! Claim theorems. -/

/-- Claim C1, counterexample: the claim asserts an arrival at 08:00:01 is
classified late, but the classification at lines 87-89 reads only the hour
and the minute, so 08:00:01 (hour 8, minute 0) is on-time. -/
theorem claim_C1_cex :
    ¬ (isLate ⟨"2026-10-12", 8, 0, 0⟩ = false ∧
       isLate ⟨"2026-10-12", 8, 0, 1⟩ = true ∧
       isLate ⟨"2026-10-12", 7, 59, 59⟩ = false) := by
  decide

/-- Claim C1 (amended): the arrival lateness classification reads only the
hour and the minute of the clock: arrivals at 08:00:00, at 08:00:01 (indeed
at 08:00 with any second count) and at 07:59:59 are all classified on-time,
the earliest late reading is 08:01:00, and a successful arrival check-in
reports exactly this classification of its clock reading. -/
theorem claim_C1_arrival_cutoff :
    (∀ d : String, ∀ s : Nat, isLate ⟨d, 8, 0, s⟩ = false) ∧
    (∀ d : String, isLate ⟨d, 7, 59, 59⟩ = false) ∧
    (∀ d : String, isLate ⟨d, 8, 1, 0⟩ = true) ∧
    (∀ dFn dec now sfx data st resp stOut, data.mode = "arrival" →
      checkin dFn dec now sfx data st = (.ok resp, stOut) →
      resp.is_late = isLate now) := by
  refine ⟨fun d s => rfl, fun d => rfl, fun d => rfl, ?_⟩
  intro dFn dec now sfx data st resp stOut hmode h
  obtain ⟨lat, lng, bytes, _, _, _, _, _, hresp, _⟩ :=
    checkin_ok_elim dFn dec now sfx data st resp stOut h
  rw [hresp, hmode]
  rfl

/-- Claim C1 witness: the amended theorem applied at concrete inputs. -/
theorem claim_C1_arrival_cutoff_witness :
    isLate ⟨"2026-10-12", 8, 0, 1⟩ = false ∧ respArr0.is_late = isLate now0 :=
  ⟨claim_C1_arrival_cutoff.1 "2026-10-12" 1,
   claim_C1_arrival_cutoff.2.2.2 dFn0 dec0 now0 "abc123" reqArr {} respArr0
     stArr0 rfl checkin_fixture_arrival⟩

/-- Claim C3: whenever checkin fails, with any of its error kinds, the
returned state is exactly the input state: no image is stored and no log
row is appended. -/
theorem claim_C3_no_side_effects_on_failure (dFn : ℚ → ℚ → ℚ → ℚ → ℚ)
    (dec : String → Option (List Nat)) (now : Now) (sfx : String)
    (data : CheckIn) (st : St) (e : Err)
    (h : (checkin dFn dec now sfx data st).1 = .error e) :
    (checkin dFn dec now sfx data st).2 = st :=
  checkin_error_state dFn dec now sfx data st e h

/-- Claim C3 witness: a lunch-mode request fails and leaves the empty state. -/
theorem claim_C3_no_side_effects_on_failure_witness :
    (checkin dFn0 dec0 now0 "abc123" reqLunch {}).2 = ({} : St) :=
  claim_C3_no_side_effects_on_failure dFn0 dec0 now0 "abc123" reqLunch {}
    .invalidMode rfl

/-- Claim C7: every successful departure check-in has a false lateness flag
and the departure status label, whatever the clock reading. -/
theorem claim_C7_departure_never_late (dFn : ℚ → ℚ → ℚ → ℚ → ℚ)
    (dec : String → Option (List Nat)) (now : Now) (sfx : String)
    (data : CheckIn) (st : St) (resp : Resp) (stOut : St)
    (hmode : data.mode = "departure")
    (h : checkin dFn dec now sfx data st = (.ok resp, stOut)) :
    resp.is_late = false ∧ resp.status = "Ishdan ketdi" := by
  obtain ⟨lat, lng, bytes, _, _, _, _, _, hresp, _⟩ :=
    checkin_ok_elim dFn dec now sfx data st resp stOut h
  rw [hresp, hmode]
  exact ⟨rfl, rfl⟩

/-- Claim C7 witness: the fixture departure run, late in the clock sense. -/
theorem claim_C7_departure_never_late_witness :
    respDep0.is_late = false ∧ respDep0.status = "Ishdan ketdi" :=
  claim_C7_departure_never_late dFn0 dec0 now0 "abc123" reqDep {} respDep0
    stDep0 rfl checkin_fixture_departure

/-- Claim C8: the Haversine distance function is symmetric in its two points. -/
theorem claim_C8_distance_m_symm (lat1 lng1 lat2 lng2 : ℝ) :
    distance_m lat1 lng1 lat2 lng2 = distance_m lat2 lng2 lat1 lng1 := by
  have ha : Real.sin (radians (lat2 - lat1) / 2) ^ 2 +
      Real.cos (radians lat1) * Real.cos (radians lat2) *
        Real.sin (radians (lng2 - lng1) / 2) ^ 2 =
      Real.sin (radians (lat1 - lat2) / 2) ^ 2 +
      Real.cos (radians lat2) * Real.cos (radians lat1) *
        Real.sin (radians (lng1 - lng2) / 2) ^ 2 := by
    rw [sin_sq_radians_flip lat2 lat1, sin_sq_radians_flip lng2 lng1]
    ring
  simp only [distance_m]
  rw [ha]

/-- Claim C2: with a valid mode and both coordinates present, checkin fails
with OutOfGeofence exactly when the computed distance strictly exceeds the
50 m radius (exactly 50 m passes), and the error then reports the distance
truncated to an integer. -/
theorem claim_C2_geofence_iff (dFn : ℚ → ℚ → ℚ → ℚ → ℚ)
    (dec : String → Option (List Nat)) (now : Now) (sfx : String)
    (data : CheckIn) (st : St) (lat lng : ℚ)
    (hm : data.mode = "arrival" ∨ data.mode = "departure")
    (hla : data.lat = some lat) (hln : data.lng = some lng) :
    ((∃ d, (checkin dFn dec now sfx data st).1 = .error (.outOfGeofence d)) ↔
      dFn lat lng OFFICE_LAT OFFICE_LNG > MAX_DISTANCE_METERS) ∧
    (dFn lat lng OFFICE_LAT OFFICE_LNG > MAX_DISTANCE_METERS →
      (checkin dFn dec now sfx data st).1 =
        .error (.outOfGeofence (truncInt (dFn lat lng OFFICE_LAT OFFICE_LNG)))) := by
  have hgt : ∀ _ : dFn lat lng OFFICE_LAT OFFICE_LNG > MAX_DISTANCE_METERS,
      (checkin dFn dec now sfx data st).1 =
        .error (.outOfGeofence (truncInt (dFn lat lng OFFICE_LAT OFFICE_LNG))) := by
    intro h
    simp only [checkin, if_neg (not_not_intro hm), hla, hln, if_pos h]
  refine ⟨⟨?_, fun h => ⟨_, hgt h⟩⟩, hgt⟩
  rintro ⟨d, hd⟩
  by_contra hnd
  cases hb : dec (stripDataUrl data.image_base64) with
  | none =>
    simp only [checkin, if_neg (not_not_intro hm), hla, hln, if_neg hnd, hb]
      at hd
    simp at hd
  | some bytes =>
    rw [checkin_success dFn dec now sfx data st lat lng bytes hm hla hln hnd hb]
      at hd
    simp at hd

/-- Claim C2 witness: a 50.5 m distance is rejected reporting 50 m. -/
theorem claim_C2_geofence_iff_witness :
    (checkin dFnFar dec0 now0 "abc123" reqArr {}).1 =
      .error (.outOfGeofence 50) := by
  have h := (claim_C2_geofence_iff dFnFar dec0 now0 "abc123" reqArr {} 1 2
    (Or.inl rfl) rfl rfl).2 (by decide)
  have ht : truncInt (dFnFar 1 2 OFFICE_LAT OFFICE_LNG) = 50 := by decide
  rw [ht] at h
  exact h

/-- Claim C4, counterexample: the header row actually written on partition
creation is the sana/vaqt header, not the date/time header the claim
states; a concrete successful check-in from the empty state shows it. -/
theorem claim_C4_cex :
    checkin dFn0 dec0 now0 "abc123" reqArr {} = (.ok respArr0, stArr0) ∧
    stArr0.csvToday = some [csvHeader, rowArr0] ∧
    csvHeader ≠ [Cell.str "date", Cell.str "time", Cell.str "mode",
      Cell.str "status", Cell.str "image_file", Cell.str "lat",
      Cell.str "lng", Cell.str "dist_m"] :=
  ⟨checkin_fixture_arrival, rfl, by decide⟩

/-- Claim C4 (amended): every partition either does not exist or begins with
the header row `sana, vaqt, mode, status, image_file, lat, lng, dist_m`, and
a successful check-in preserves this shape while appending exactly one data
row at the end (creating the partition with the header when absent). -/
theorem claim_C4_partition_header (dFn : ℚ → ℚ → ℚ → ℚ → ℚ)
    (dec : String → Option (List Nat)) (now : Now) (sfx : String)
    (data : CheckIn) (st : St)
    (hinv : ∀ rows, st.csvToday = some rows →
      ∃ dataRows, rows = csvHeader :: dataRows) :
    (∀ rows, (checkin dFn dec now sfx data st).2.csvToday = some rows →
      ∃ dataRows, rows = csvHeader :: dataRows) ∧
    (∀ resp stOut, checkin dFn dec now sfx data st = (.ok resp, stOut) →
      ∃ row, (st.csvToday = none ∧ stOut.csvToday = some [csvHeader, row]) ∨
        (∃ old, st.csvToday = some (csvHeader :: old) ∧
          stOut.csvToday = some (csvHeader :: (old ++ [row])))) := by
  constructor
  · intro rows hrows
    rcases hres : checkin dFn dec now sfx data st with ⟨fst, snd⟩
    cases fst with
    | error e =>
      have h2 : (checkin dFn dec now sfx data st).2 = st :=
        checkin_error_state dFn dec now sfx data st e (by rw [hres])
      rw [h2] at hrows
      exact hinv rows hrows
    | ok resp =>
      obtain ⟨lat, lng, bytes, _, _, _, _, _, _, hst⟩ :=
        checkin_ok_elim dFn dec now sfx data st resp snd hres
      rw [hres] at hrows
      simp only [successSt, hst] at hrows
      obtain ⟨d, hd⟩ := appendRow_header st.csvToday
        (mkRow now.dateStr (timeStr now) (modeTextOf data.mode)
          (statusOf data.mode now) (mkFilename now sfx) lat lng
          (dFn lat lng OFFICE_LAT OFFICE_LNG)) hinv
      rw [hd] at hrows
      exact ⟨d, (Option.some.injEq .. ▸ hrows).symm⟩
  · intro resp stOut hres
    obtain ⟨lat, lng, bytes, _, _, _, _, _, _, hst⟩ :=
      checkin_ok_elim dFn dec now sfx data st resp stOut hres
    refine ⟨mkRow now.dateStr (timeStr now) (modeTextOf data.mode)
      (statusOf data.mode now) (mkFilename now sfx) lat lng
      (dFn lat lng OFFICE_LAT OFFICE_LNG), ?_⟩
    cases hcsv : st.csvToday with
    | none =>
      left
      refine ⟨rfl, ?_⟩
      rw [hst]
      simp [successSt, appendRow, hcsv]
    | some rows =>
      right
      obtain ⟨d, hd⟩ := hinv rows hcsv
      refine ⟨d, congrArg some hd, ?_⟩
      rw [hst]
      simp [successSt, appendRow, hcsv, hd]

/-- Claim C4 witness: the amended theorem applied to the fixture run from
the empty state. -/
theorem claim_C4_partition_header_witness :
    ∃ row, (({} : St).csvToday = none ∧
        stArr0.csvToday = some [csvHeader, row]) ∨
      (∃ old, ({} : St).csvToday = some (csvHeader :: old) ∧
        stArr0.csvToday = some (csvHeader :: (old ++ [row]))) :=
  (claim_C4_partition_header dFn0 dec0 now0 "abc123" reqArr {}
    (fun _ h => nomatch h)).2 respArr0 stArr0 checkin_fixture_arrival

/-- Claim C9: the data row appended by any successful check-in carries, in
its dist_m column, a rounded distance of at most the 50 m radius. -/
theorem claim_C9_logged_distance_bounded (dFn : ℚ → ℚ → ℚ → ℚ → ℚ)
    (dec : String → Option (List Nat)) (now : Now) (sfx : String)
    (data : CheckIn) (st : St) (resp : Resp) (stOut : St)
    (h : checkin dFn dec now sfx data st = (.ok resp, stOut)) :
    ∃ pre row q, stOut.csvToday = some (pre ++ [row]) ∧
      row[7]? = some (Cell.num q) ∧ q ≤ MAX_DISTANCE_METERS := by
  obtain ⟨lat, lng, bytes, _, _, _, hd, _, _, hst⟩ :=
    checkin_ok_elim dFn dec now sfx data st resp stOut h
  subst hst
  have hq : round2 (dFn lat lng OFFICE_LAT OFFICE_LNG) ≤ MAX_DISTANCE_METERS :=
    round2_le_max _ (not_lt.mp hd)
  cases hcsv : st.csvToday with
  | none =>
    refine ⟨[csvHeader], mkRow now.dateStr (timeStr now) (modeTextOf data.mode)
      (statusOf data.mode now) (mkFilename now sfx) lat lng
      (dFn lat lng OFFICE_LAT OFFICE_LNG),
      round2 (dFn lat lng OFFICE_LAT OFFICE_LNG), ?_, rfl, hq⟩
    simp [successSt, appendRow, hcsv]
  | some rows =>
    refine ⟨rows, mkRow now.dateStr (timeStr now) (modeTextOf data.mode)
      (statusOf data.mode now) (mkFilename now sfx) lat lng
      (dFn lat lng OFFICE_LAT OFFICE_LNG),
      round2 (dFn lat lng OFFICE_LAT OFFICE_LNG), ?_, rfl, hq⟩
    simp [successSt, appendRow, hcsv]

/-- Claim C9 witness: the fixture arrival run. -/
theorem claim_C9_logged_distance_bounded_witness :
    ∃ pre row q, stArr0.csvToday = some (pre ++ [row]) ∧
      row[7]? = some (Cell.num q) ∧ q ≤ MAX_DISTANCE_METERS :=
  claim_C9_logged_distance_bounded dFn0 dec0 now0 "abc123" reqArr {} respArr0
    stArr0 checkin_fixture_arrival

/-- Claim C5: starting from a day with no partition, two successful
check-ins leave a partition holding exactly one header row and the two data
rows in submission order, the first check-in having lazily created the
partition with the header and its row only. -/
theorem claim_C5_two_checkins_same_day (dFn : ℚ → ℚ → ℚ → ℚ → ℚ)
    (dec : String → Option (List Nat)) (n1 n2 : Now) (s1 s2 : String)
    (d1 d2 : CheckIn) (st0 : St) (la1 ln1 la2 ln2 : ℚ) (b1 b2 : List Nat)
    (h0 : st0.csvToday = none)
    (hm1 : d1.mode = "arrival" ∨ d1.mode = "departure")
    (h1a : d1.lat = some la1) (h1b : d1.lng = some ln1)
    (hd1 : ¬ dFn la1 ln1 OFFICE_LAT OFFICE_LNG > MAX_DISTANCE_METERS)
    (hb1 : dec (stripDataUrl d1.image_base64) = some b1)
    (hm2 : d2.mode = "arrival" ∨ d2.mode = "departure")
    (h2a : d2.lat = some la2) (h2b : d2.lng = some ln2)
    (hd2 : ¬ dFn la2 ln2 OFFICE_LAT OFFICE_LNG > MAX_DISTANCE_METERS)
    (hb2 : dec (stripDataUrl d2.image_base64) = some b2) :
    ((checkin dFn dec n1 s1 d1 st0).1.isOk = true) ∧
    ((checkin dFn dec n2 s2 d2 (checkin dFn dec n1 s1 d1 st0).2).1.isOk
      = true) ∧
    ((checkin dFn dec n1 s1 d1 st0).2.csvToday =
      some [csvHeader,
        mkRow n1.dateStr (timeStr n1) (modeTextOf d1.mode) (statusOf d1.mode n1)
          (mkFilename n1 s1) la1 ln1 (dFn la1 ln1 OFFICE_LAT OFFICE_LNG)]) ∧
    ((checkin dFn dec n2 s2 d2 (checkin dFn dec n1 s1 d1 st0).2).2.csvToday =
      some [csvHeader,
        mkRow n1.dateStr (timeStr n1) (modeTextOf d1.mode) (statusOf d1.mode n1)
          (mkFilename n1 s1) la1 ln1 (dFn la1 ln1 OFFICE_LAT OFFICE_LNG),
        mkRow n2.dateStr (timeStr n2) (modeTextOf d2.mode) (statusOf d2.mode n2)
          (mkFilename n2 s2) la2 ln2 (dFn la2 ln2 OFFICE_LAT OFFICE_LNG)]) := by
  have e1 := checkin_success dFn dec n1 s1 d1 st0 la1 ln1 b1 hm1 h1a h1b hd1 hb1
  have e2 := checkin_success dFn dec n2 s2 d2
    (successSt st0 (mkFilename n1 s1) b1
      (mkRow n1.dateStr (timeStr n1) (modeTextOf d1.mode) (statusOf d1.mode n1)
        (mkFilename n1 s1) la1 ln1 (dFn la1 ln1 OFFICE_LAT OFFICE_LNG)))
    la2 ln2 b2 hm2 h2a h2b hd2 hb2
  rw [e1]
  dsimp only
  rw [e2]
  dsimp only
  refine ⟨rfl, rfl, ?_, ?_⟩
  · simp [successSt, appendRow, h0]
  · simp [successSt, appendRow, h0]

/-- Claim C5 witness: the fixture morning arrival and evening departure. -/
theorem claim_C5_two_checkins_same_day_witness :
    ((checkin dFn0 dec0 now0 "abc123" reqArr ({} : St)).1.isOk = true) ∧
    ((checkin dFn0 dec0 now1 "def456" reqDep
      (checkin dFn0 dec0 now0 "abc123" reqArr ({} : St)).2).1.isOk = true) ∧
    ((checkin dFn0 dec0 now0 "abc123" reqArr ({} : St)).2.csvToday =
      some [csvHeader,
        mkRow now0.dateStr (timeStr now0) (modeTextOf reqArr.mode)
          (statusOf reqArr.mode now0) (mkFilename now0 "abc123") 1 2
          (dFn0 1 2 OFFICE_LAT OFFICE_LNG)]) ∧
    ((checkin dFn0 dec0 now1 "def456" reqDep
      (checkin dFn0 dec0 now0 "abc123" reqArr ({} : St)).2).2.csvToday =
      some [csvHeader,
        mkRow now0.dateStr (timeStr now0) (modeTextOf reqArr.mode)
          (statusOf reqArr.mode now0) (mkFilename now0 "abc123") 1 2
          (dFn0 1 2 OFFICE_LAT OFFICE_LNG),
        mkRow now1.dateStr (timeStr now1) (modeTextOf reqDep.mode)
          (statusOf reqDep.mode now1) (mkFilename now1 "def456") 1 2
          (dFn0 1 2 OFFICE_LAT OFFICE_LNG)]) :=
  claim_C5_two_checkins_same_day dFn0 dec0 now0 now1 "abc123" "def456" reqArr
    reqDep {} 1 2 1 2 [1] [1] rfl (Or.inl rfl) rfl rfl (by decide) rfl
    (Or.inr rfl) rfl rfl (by decide) rfl

/-- Claim C6: the export fails (necessarily with NoDataForToday) exactly
when no partition exists for today; a data row whose referenced image file
is absent from disk does not fail the export and gets an empty image cell. -/
theorem claim_C6_export_failure_semantics (st : St) :
    (export_today st = .error .noDataForToday ↔ st.csvToday = none) ∧
    (∀ e, export_today st = .error e → e = .noDataForToday) ∧
    (∀ content r f, st.csvToday = some content → r ∈ content.drop 1 →
      r[4]? = some (Cell.str f) →
      (st.images.map Prod.fst).contains f = false →
      export_today st = .ok ((content.drop 1).map (buildRow st)) ∧
      (buildRow st r).image = none) := by
  refine ⟨?_, ?_, ?_⟩
  · cases hc : st.csvToday with
    | none => simp [export_today, hc]
    | some content => simp [export_today, hc]
  · intro e he
    cases hc : st.csvToday with
    | none =>
      simp only [export_today, hc] at he
      exact (Except.error.injEq .. ▸ he).symm
    | some content =>
      simp only [export_today, hc] at he
      exact Except.noConfusion he
  · intro content r f hc hr h4 hcont
    refine ⟨by simp [export_today, hc], ?_⟩
    simp only [buildRow, h4, hcont]
    simp

/-- Claim C6 witness: empty state has no partition and fails; a partition
whose single row references a deleted image still exports, with an empty
image cell. -/
theorem claim_C6_export_failure_semantics_witness :
    (export_today ({} : St) = .error .noDataForToday ↔
      ({} : St).csvToday = none) ∧
    export_today stGhost = .ok [buildRow stGhost rowArr0] ∧
    (buildRow stGhost rowArr0).image = none := by
  have h := (claim_C6_export_failure_semantics stGhost).2.2
    [csvHeader, rowArr0] rowArr0 fn0 rfl (by simp) rfl rfl
  exact ⟨(claim_C6_export_failure_semantics {}).1, h.1, h.2⟩

/-- Claim C10: every row of a successful export has height 60, whether or
not a thumbnail was embedded in it. -/
theorem claim_C10_export_row_height (st : St) (out : List XRow)
    (h : export_today st = .ok out) : ∀ x ∈ out, x.height = 60 := by
  cases hc : st.csvToday with
  | none =>
    simp only [export_today, hc] at h
    exact Except.noConfusion h
  | some content =>
    simp only [export_today, hc] at h
    have hout : (content.drop 1).map (buildRow st) = out :=
      Except.ok.injEq .. ▸ h
    intro x hx
    rw [← hout] at hx
    obtain ⟨r, _, hr⟩ := List.mem_map.mp hx
    rw [← hr]
    rfl

/-- Claim C10 witness: the row with the missing image still has height 60. -/
theorem claim_C10_export_row_height_witness :
    (buildRow stGhost rowArr0).height = 60 :=
  claim_C10_export_row_height stGhost [buildRow stGhost rowArr0] rfl
    (buildRow stGhost rowArr0) (List.Mem.head _)

end Davomat
